import Mathlib

/-!
Shallow embedding of the Streamlit chat application (src/app.py).

The program is a single render-loop script re-executed by the host UI
framework on every interaction.  We model:
  * the process environment as a record of optional strings;
  * `st.session_state` as a record of two optional fields
    (the `messages` list and the `model_config` dict);
  * Python operations that can raise (`int(...)`, `list.index(...)`,
    `st.experimental_rerun()`-terminated passes) as `Option`-valued
    functions, `none` marking the raised exception / early termination;
  * the external Anthropic API call as an oracle function
    `Request → Outcome`, where `Outcome.exn` stands for any exception the
    client library may raise (network error, timeout, API error) and
    `Outcome.ok segments` for a response carrying a list of content
    segments.
-/

/-- Message role, as used in the `"role"` field of the message dicts. -/
inductive Role where
  | user
  | assistant
deriving DecidableEq, Repr

/-- A chat message: `{"role": ..., "content": ...}`. -/
structure Message where
  role : Role
  content : String
deriving DecidableEq, Repr

/-- `st.session_state.messages` is an ordered list of messages. -/
abbrev Conversation := List Message

/-- `st.session_state.model_config`, the dict built in
`initialize_session_state`.  The Python `0.7` temperature literal is
modelled as the rational `7/10`. -/
structure ModelConfig where
  model : String
  temperature : ℚ
  max_tokens : Int
deriving DecidableEq, Repr

/-- The hardcoded temperature literal `0.7` of `initialize_session_state`,
modelled as the rational `7/10` (given by an explicit constructor so the
kernel can evaluate comparisons on it). -/
def temp07 : ℚ := ⟨7, 10, by decide, by decide⟩

/-- The process environment: the four variables the program reads via
`os.getenv`.  `none` means the variable is unset. -/
structure Env where
  DEFAULT_MODEL : Option String
  DEFAULT_MAX_TOKENS : Option String
  AVAILABLE_MODELS : Option String
  ANTHROPIC_API_KEY : Option String
deriving DecidableEq, Repr

/-- `st.session_state`: each field is `none` when the key is absent
(`'messages' not in st.session_state`). -/
structure SessionState where
  messages : Option Conversation
  model_config : Option ModelConfig
deriving DecidableEq, Repr

/-- Auxiliary digit scanner for Python `int()` on strings: digits with
single underscores allowed between digits (CPython grammar). -/
def pyDigitsAux : Nat → List Char → Option Nat
  | acc, [] => some acc
  | acc, '_' :: rest =>
    match rest with
    | [] => none
    | c :: rest2 =>
      if c.isDigit then pyDigitsAux (acc * 10 + (c.toNat - 48)) rest2 else none
  | acc, c :: rest =>
    if c.isDigit then pyDigitsAux (acc * 10 + (c.toNat - 48)) rest else none

/-- Nonempty digit run (first character must be a digit). -/
def pyNatOfChars : List Char → Option Nat
  | [] => none
  | c :: rest => if c.isDigit then pyDigitsAux (c.toNat - 48) rest else none

/-- Python `int(s)` for a string `s`: strip surrounding whitespace, allow
one optional sign, then a nonempty digit run.  `none` models the
`ValueError` that `int` raises on anything else. -/
def pyIntOfString (s : String) : Option Int :=
  let cs := s.toList.dropWhile Char.isWhitespace
  let cs := (cs.reverse.dropWhile Char.isWhitespace).reverse
  match cs with
  | '+' :: rest => (pyNatOfChars rest).map (fun n => (n : Int))
  | '-' :: rest => (pyNatOfChars rest).map (fun n => -(n : Int))
  | _ => (pyNatOfChars cs).map (fun n => (n : Int))

/-- The `max_tokens` entry of the config:
`int(os.getenv('DEFAULT_MAX_TOKENS', 1000))`.  When the variable is
unset, `os.getenv` returns the integer default `1000` and `int(1000)`
is `1000`; when it is set, `int` parses the string and `none` models the
`ValueError` on an unparsable value. -/
def loadMaxTokens (env : Env) : Option Int :=
  match env.DEFAULT_MAX_TOKENS with
  | none => some 1000
  | some s => pyIntOfString s

/-- `os.getenv('DEFAULT_MODEL', 'claude-3-opus-20240229')`. -/
def loadDefaultModel (env : Env) : String :=
  env.DEFAULT_MODEL.getD "claude-3-opus-20240229"

/-- Embedding of `initialize_session_state()`: each missing
`session_state` key is created; `none` models the `ValueError` raised by
`int` while building `model_config`. -/
def init_session_state (env : Env) (st : SessionState) : Option SessionState :=
  let st1 := if st.messages.isNone then { st with messages := some [] } else st
  if st1.model_config.isNone then
    match loadMaxTokens env with
    | none => none
    | some mt =>
      let cfg : ModelConfig :=
        { model := loadDefaultModel env
          temperature := temp07
          max_tokens := mt }
      some { st1 with model_config := some cfg }
  else some st1

/-- Helper for Python `s.split(',')`: `acc` holds the current chunk in
reverse. -/
def splitCommaAux : List Char → List Char → List String
  | acc, [] => [String.mk acc.reverse]
  | acc, ',' :: rest => String.mk acc.reverse :: splitCommaAux [] rest
  | acc, c :: rest => splitCommaAux (c :: acc) rest

/-- Python `s.split(',')`: splits at every comma; `''.split(',')` is
`['']`. -/
def pySplitComma (s : String) : List String := splitCommaAux [] s.toList

/-- The allow-list computed in `sidebar_config`:
`os.getenv('AVAILABLE_MODELS', '').split(',')` with the hardcoded
three-model fallback when the result is empty or `['']`. -/
def model_options (env : Env) : List String :=
  let opts := pySplitComma (env.AVAILABLE_MODELS.getD "")
  if opts = [] ∨ opts = [""] then
    ["claude-3-opus-20240229", "claude-3-sonnet-20240229", "claude-3-haiku-20240307"]
  else opts

/-- Python `list.index(x)`: index of the first occurrence, `none`
modelling the `ValueError` when `x` is not in the list. -/
def listIndex (x : String) : List String → Option Nat
  | [] => none
  | a :: rest => if a = x then some 0 else (listIndex x rest).map (fun i => i + 1)

/-- Embedding of `sidebar_config()`: looks up the current model in the
allow-list to pre-select it (`model_options.index(...)`), then stores the
selectbox result (with no user interaction, the option at the computed
index) back into `model_config['model']`.  `none` models the
`ValueError` raised by `.index` when the current model is absent. -/
def sidebar_config (env : Env) (cfg : ModelConfig) : Option ModelConfig :=
  let opts := model_options env
  match listIndex cfg.model opts with
  | none => none
  | some i => some { cfg with model := opts.getD i "" }

/-- The single request `client.messages.create(...)` is given. -/
structure Request where
  model : String
  max_tokens : Int
  temperature : ℚ
  messages : List Message
deriving DecidableEq, Repr

/-- Behaviour of the external API call: a response carrying content
segments, or any raised exception (network failure, timeout, API
error). -/
inductive Outcome where
  | ok (content : List String)
  | exn (msg : String)
deriving DecidableEq, Repr

/-- What a call to `generate_llm_response` produces: the returned string,
how many network calls were made, and the request sent (if any). -/
structure GenResult where
  text : String
  networkCalls : Nat
  sentRequest : Option Request
deriving DecidableEq, Repr

/-- `"API key is required to use the model."` — the string returned when
the credential is missing (the MissingCredential classification). -/
def missingKeyMsg : String := "API key is required to use the model."

/-- `"An error occurred while generating the response."` — the string
returned from the `except` branch (the CompletionFailed
classification). -/
def errorMsg : String := "An error occurred while generating the response."

/-- The request built in `generate_llm_response`: the full message list
(`[{"role": m["role"], "content": m["content"]} for m in messages]`)
plus the three config fields. -/
def mkRequest (conv : Conversation) (cfg : ModelConfig) : Request :=
  { model := cfg.model
    max_tokens := cfg.max_tokens
    temperature := cfg.temperature
    messages := conv.map (fun m => { role := m.role, content := m.content }) }

/-- Embedding of `generate_llm_response`.  `conv` is
`st.session_state.messages` at call time and `cfg` is
`st.session_state.model_config`.  The Python `if not api_key` guard is
true both for an unset variable and for the empty string.  Inside the
`try`, `response.content[0]` on an empty content list raises IndexError,
which the blanket `except Exception` also catches. -/
def generate_llm_response (env : Env) (conv : Conversation) (cfg : ModelConfig)
    (api : Request → Outcome) : GenResult :=
  match env.ANTHROPIC_API_KEY with
  | none => { text := missingKeyMsg, networkCalls := 0, sentRequest := none }
  | some key =>
    if key = "" then { text := missingKeyMsg, networkCalls := 0, sentRequest := none }
    else
      let req := mkRequest conv cfg
      match api req with
      | Outcome.exn _ => { text := errorMsg, networkCalls := 1, sentRequest := some req }
      | Outcome.ok [] => { text := errorMsg, networkCalls := 1, sentRequest := some req }
      | Outcome.ok (t :: _) => { text := t, networkCalls := 1, sentRequest := some req }

/-- Observable outcome of one pass of `main()`: the session state when
the pass ends, the chat messages rendered during the pass in order, a
flag for `st.experimental_rerun()`, and the request sent to the API (if
any). -/
structure PassResult where
  state : SessionState
  rendered : List Message
  rerun : Bool
  sentRequest : Option Request
deriving DecidableEq, Repr

/-- Embedding of one pass of `main()`.  `prompt` is the value of the
text input (`""` when nothing was submitted: `if prompt:` is false),
`clearClicked` the clear-history button.  The pass, in source order:
initialize state, sidebar (may raise), display history, process the
prompt (append user message, call the client, append assistant
message), then the clear button: set `messages = []` and rerun, which
ends the pass.  `none` models a pass that dies with an exception. -/
def mainPass (env : Env) (st : SessionState) (prompt : String) (clearClicked : Bool)
    (api : Request → Outcome) : Option PassResult :=
  match init_session_state env st with
  | none => none
  | some st1 =>
    match st1.model_config with
    | none => none
    | some cfg =>
      match sidebar_config env cfg with
      | none => none
      | some cfg1 =>
        let msgs := st1.messages.getD []
        let step :=
          if prompt = "" then (msgs, msgs, (none : Option Request))
          else
            let userMsg : Message := { role := Role.user, content := prompt }
            let withUser := msgs ++ [userMsg]
            let r := generate_llm_response env withUser cfg1 api
            let asstMsg : Message := { role := Role.assistant, content := r.text }
            (withUser ++ [asstMsg], msgs ++ [userMsg, asstMsg], r.sentRequest)
        let finalMsgs := if clearClicked then ([] : List Message) else step.1
        some { state := { messages := some finalMsgs, model_config := some cfg1 }
               rendered := step.2.1
               rerun := clearClicked
               sentRequest := step.2.2 }

/-- Run a sequence of passes, one submission per pass, clear never
clicked, threading the session state. -/
def runPasses (env : Env) (api : Request → Outcome) (st : SessionState) :
    List String → Option SessionState
  | [] => some st
  | p :: ps =>
    match mainPass env st p false api with
    | none => none
    | some r => runPasses env api r.state ps

/-- The expected conversation after submitting each prompt with a stub
client that always answers `canned`: a user/assistant pair per turn. -/
def turns (canned : String) : List String → List Message
  | [] => []
  | p :: ps =>
    { role := Role.user, content := p } ::
      { role := Role.assistant, content := canned } :: turns canned ps

/-! ### Helper lemmas -/

/-- Sanity: the modelled temperature is the rational `7/10`. -/
lemma temp07_eq : temp07 = 7 / 10 := by
  norm_num [temp07, Rat.mk_eq_divInt, Rat.divInt_eq_div]

/-- If `list.index` succeeds, the element at the returned index is the
sought value. -/
lemma listIndex_getD {x : String} :
    ∀ {l : List String} {i : Nat}, listIndex x l = some i → l.getD i "" = x := by
  intro l
  induction l with
  | nil => intro i h; simp [listIndex] at h
  | cons a rest ih =>
    intro i h
    by_cases ha : a = x
    · simp [listIndex, ha] at h
      subst h
      simpa using ha
    · simp [listIndex, ha] at h
      obtain ⟨j, hj, hji⟩ := h
      subst hji
      simpa using ih hj

/-- `list.index` succeeds on members. -/
lemma listIndex_of_mem {x : String} :
    ∀ {l : List String}, x ∈ l → ∃ i, listIndex x l = some i := by
  intro l
  induction l with
  | nil => intro h; cases h
  | cons a rest ih =>
    intro h
    by_cases ha : a = x
    · exact ⟨0, by simp [listIndex, ha]⟩
    · rcases List.mem_cons.mp h with rfl | hmem
      · exact absurd rfl ha
      · obtain ⟨i, hi⟩ := ih hmem
        exact ⟨i + 1, by simp [listIndex, ha, hi]⟩

/-- When the current model is in the allow-list, the sidebar leaves the
configuration unchanged (selectbox pre-selects the current value). -/
lemma sidebar_config_of_mem {env : Env} {cfg : ModelConfig}
    (h : cfg.model ∈ model_options env) : sidebar_config env cfg = some cfg := by
  obtain ⟨i, hi⟩ := listIndex_of_mem h
  have hx := listIndex_getD hi
  simp only [sidebar_config, hi]
  rw [hx]

/-- The message-dict comprehension in `generate_llm_response` is the
identity on the conversation. -/
lemma mkRequest_messages (conv : Conversation) (cfg : ModelConfig) :
    (mkRequest conv cfg).messages = conv := by
  simp only [mkRequest]
  exact List.map_id conv

/-- Re-initializing a fully populated session state is a no-op. -/
lemma init_session_state_some (env : Env) (msgs : Conversation) (cfg : ModelConfig) :
    init_session_state env { messages := some msgs, model_config := some cfg }
      = some { messages := some msgs, model_config := some cfg } := rfl

/-- When the credential is present and the API call succeeds, the client
returns the first content segment (with exactly one network call). -/
lemma generate_ok_eq (env : Env) (k : String) (conv : Conversation) (cfg : ModelConfig)
    (api : Request → Outcome) (t : String) (rest : List String)
    (hkey : env.ANTHROPIC_API_KEY = some k) (hk : ¬ k = "")
    (hres : api (mkRequest conv cfg) = Outcome.ok (t :: rest)) :
    generate_llm_response env conv cfg api
      = { text := t, networkCalls := 1, sentRequest := some (mkRequest conv cfg) } := by
  simp only [generate_llm_response, hkey]
  rw [if_neg hk]
  simp only [hres]

/-- The result of a pass that processes a non-empty submission with the
clear button not clicked. -/
def submitResult (env : Env) (cfg : ModelConfig) (api : Request → Outcome)
    (msgs : Conversation) (p : String) : PassResult :=
  let userMsg : Message := { role := Role.user, content := p }
  let r := generate_llm_response env (msgs ++ [userMsg]) cfg api
  let asstMsg : Message := { role := Role.assistant, content := r.text }
  { state := { messages := some (msgs ++ [userMsg, asstMsg]), model_config := some cfg }
    rendered := msgs ++ [userMsg, asstMsg]
    rerun := false
    sentRequest := r.sentRequest }

/-- One pass on a populated state with a valid selected model and a
non-empty submission: the turn appends the user message and the
assistant reply. -/
lemma mainPass_submit (env : Env) (cfg : ModelConfig) (api : Request → Outcome)
    (msgs : Conversation) (p : String)
    (hmem : cfg.model ∈ model_options env) (hp : ¬ p = "") :
    mainPass env { messages := some msgs, model_config := some cfg } p false api
      = some (submitResult env cfg api msgs p) := by
  simp only [mainPass, init_session_state_some, sidebar_config_of_mem hmem]
  rw [if_neg hp]
  simp [submitResult]

/-- When the credential is present and the API call raises or returns an
empty content list, the client returns the CompletionFailed message. -/
lemma generate_fail_eq (env : Env) (k : String) (conv : Conversation) (cfg : ModelConfig)
    (api : Request → Outcome) (m : String)
    (hkey : env.ANTHROPIC_API_KEY = some k) (hk : ¬ k = "")
    (hres : api (mkRequest conv cfg) = Outcome.exn m ∨ api (mkRequest conv cfg) = Outcome.ok []) :
    generate_llm_response env conv cfg api
      = { text := errorMsg, networkCalls := 1, sentRequest := some (mkRequest conv cfg) } := by
  simp only [generate_llm_response, hkey]
  rw [if_neg hk]
  rcases hres with h | h <;> simp only [h]

/-- Iterating passes with the canned-text stub grows the conversation by
one user/assistant pair per prompt. -/
lemma runPasses_canned (env : Env) (cfg : ModelConfig) (k canned : String)
    (hkey : env.ANTHROPIC_API_KEY = some k) (hk : ¬ k = "")
    (hmem : cfg.model ∈ model_options env) :
    ∀ (prompts : List String) (msgs : Conversation), (∀ q ∈ prompts, ¬ q = "") →
      runPasses env (fun _ => Outcome.ok [canned])
          { messages := some msgs, model_config := some cfg } prompts
        = some { messages := some (msgs ++ turns canned prompts), model_config := some cfg } := by
  intro prompts
  induction prompts with
  | nil => intro msgs h; simp [runPasses, turns]
  | cons p ps ih =>
    intro msgs h
    have hp : ¬ p = "" := h p (List.mem_cons_self p ps)
    have hgen := generate_ok_eq env k (msgs ++ [{ role := Role.user, content := p }]) cfg
      (fun _ => Outcome.ok [canned]) canned [] hkey hk rfl
    simp only [runPasses, mainPass_submit env cfg _ msgs p hmem hp, submitResult, hgen]
    rw [ih _ (fun q hq => h q (List.mem_cons_of_mem p hq))]
    simp [turns]

/-- Each turn of the canned run contributes exactly two messages. -/
lemma turns_length (canned : String) :
    ∀ prompts : List String, (turns canned prompts).length = 2 * prompts.length := by
  intro prompts
  induction prompts with
  | nil => rfl
  | cons p ps ih => simp [turns, ih]; ring

/-- The request built by the client is exactly the conversation plus the
three settings fields. -/
lemma mkRequest_eq (conv : Conversation) (cfg : ModelConfig) :
    mkRequest conv cfg
      = { model := cfg.model, max_tokens := cfg.max_tokens,
          temperature := cfg.temperature, messages := conv } := by
  unfold mkRequest
  rw [show List.map (fun m => ({ role := m.role, content := m.content } : Message)) conv
        = conv from List.map_id conv]

/-- Whenever the credential is present, the client sends exactly one
request, namely `mkRequest conv cfg`. -/
lemma generate_sentRequest (env : Env) (k : String) (conv : Conversation) (cfg : ModelConfig)
    (api : Request → Outcome) (hkey : env.ANTHROPIC_API_KEY = some k) (hk : ¬ k = "") :
    (generate_llm_response env conv cfg api).sentRequest = some (mkRequest conv cfg) := by
  simp only [generate_llm_response, hkey]
  rw [if_neg hk]
  cases hres : api (mkRequest conv cfg) with
  | exn m => simp [hres]
  | ok content => cases content with
    | nil => simp [hres]
    | cons t rest => simp [hres]

/-- Initialization leaves a fully populated state unchanged. -/
lemma init_session_state_noop (env : Env) (st : SessionState)
    (h1 : st.messages.isSome) (h2 : st.model_config.isSome) :
    init_session_state env st = some st := by
  obtain ⟨om, oc⟩ := st
  cases om with
  | none => simp at h1
  | some msgs =>
    cases oc with
    | none => simp at h2
    | some cfg => exact init_session_state_some env msgs cfg

/-- A successful initialization always yields a state with both keys
present. -/
lemma init_session_state_fields (env : Env) (st st2 : SessionState)
    (h : init_session_state env st = some st2) :
    st2.messages.isSome ∧ st2.model_config.isSome := by
  obtain ⟨om, oc⟩ := st
  cases om with
  | none =>
    cases oc with
    | none =>
      cases hl : loadMaxTokens env with
      | none => simp [init_session_state, hl] at h
      | some mt =>
        simp [init_session_state, hl] at h
        rw [← h]
        exact ⟨rfl, rfl⟩
    | some cfg =>
      simp [init_session_state] at h
      rw [← h]
      exact ⟨rfl, rfl⟩
  | some msgs =>
    cases oc with
    | none =>
      cases hl : loadMaxTokens env with
      | none => simp [init_session_state, hl] at h
      | some mt =>
        simp [init_session_state, hl] at h
        rw [← h]
        exact ⟨rfl, rfl⟩
    | some cfg =>
      rw [init_session_state_some] at h
      rw [← Option.some.inj h]
      exact ⟨rfl, rfl⟩

/-! ### Concrete fixtures used by witnesses and counterexamples -/

/-- A small concrete environment: allow-list `m1,m2`, default model `m1`,
max-tokens string `5`, credential `k`. -/
def envW : Env :=
  { DEFAULT_MODEL := some "m1", DEFAULT_MAX_TOKENS := some "5",
    AVAILABLE_MODELS := some "m1,m2", ANTHROPIC_API_KEY := some "k" }

/-- `envW` with the credential unset. -/
def envNoKey : Env := { envW with ANTHROPIC_API_KEY := none }

/-- A concrete model configuration whose model is in `envW`'s allow-list. -/
def cfgW : ModelConfig := { model := "m1", temperature := temp07, max_tokens := 5 }

/-- A concrete prior message. -/
def oldMsg : Message := { role := Role.user, content := "hello" }

/-- A stub API that always answers with the single segment `hi there`. -/
def apiOkW : Request → Outcome := fun _ => Outcome.ok ["hi there"]

/-- A stub API that always raises. -/
def apiExnW : Request → Outcome := fun _ => Outcome.exn "boom"

/-- A stub API returning two content segments. -/
def apiMultiW : Request → Outcome := fun _ => Outcome.ok ["hi", "extra"]

/-! ### Claim theorems -/

/-- Claim C1: the spec requires that a stale selected model (not in the
allow-list) must not crash the selector and must fall back to the first
allow-list entry.  The code instead calls `model_options.index(...)`
unguarded: with allow-list `["m1","m2"]` and current model `"m3"` the
lookup raises `ValueError` (modelled as `none`), so the code contradicts
the spec's stated intent. -/
theorem sidebar_stale_model_crashes :
    sidebar_config
        { DEFAULT_MODEL := none, DEFAULT_MAX_TOKENS := none,
          AVAILABLE_MODELS := some "m1,m2", ANTHROPIC_API_KEY := none }
        { model := "m3", temperature := temp07, max_tokens := 1000 }
      = none := by decide

/-- Claim C2: the spec requires max-tokens loading to fall back to 1000
on an unparsable value instead of crashing.  The code's
`int(os.getenv('DEFAULT_MAX_TOKENS', 1000))` does use 1000 when the
variable is absent, but raises `ValueError` (modelled as `none`) when it
is set to an unparsable string such as `"abc"`. -/
theorem max_tokens_unparsable_crashes :
    loadMaxTokens
        { DEFAULT_MODEL := none, DEFAULT_MAX_TOKENS := some "abc",
          AVAILABLE_MODELS := none, ANTHROPIC_API_KEY := none }
      = none
  ∧ loadMaxTokens
        { DEFAULT_MODEL := none, DEFAULT_MAX_TOKENS := none,
          AVAILABLE_MODELS := none, ANTHROPIC_API_KEY := none }
      = some 1000 := by decide

/-- Claim C4: with the credential present, whenever the external call
raises any exception or returns a malformed (empty-content) response,
the Completion Client returns the classified CompletionFailed result
carrying the human-readable description `errorMsg`; no exception
propagates past the function (it is total in the model, mirroring the
blanket `except Exception`). -/
theorem completion_failures_classified (env : Env) (k : String) (conv : Conversation)
    (cfg : ModelConfig) (api : Request → Outcome) (m : String)
    (hkey : env.ANTHROPIC_API_KEY = some k) (hk : ¬ k = "")
    (hfail : api (mkRequest conv cfg) = Outcome.exn m
      ∨ api (mkRequest conv cfg) = Outcome.ok []) :
    generate_llm_response env conv cfg api
      = { text := errorMsg, networkCalls := 1, sentRequest := some (mkRequest conv cfg) } :=
  generate_fail_eq env k conv cfg api m hkey hk hfail

/-- Witness for C4 at a concrete always-raising stub. -/
theorem completion_failures_classified_witness :
    generate_llm_response envW [oldMsg] cfgW apiExnW
      = { text := errorMsg, networkCalls := 1, sentRequest := some (mkRequest [oldMsg] cfgW) } :=
  completion_failures_classified envW "k" [oldMsg] cfgW apiExnW "boom" rfl (by decide) (Or.inl rfl)

/-- Claim C5: if the API credential is absent from the environment, the
Completion Client returns the MissingCredential result immediately, with
zero network calls and no request built. -/
theorem missing_credential_no_network (env : Env) (conv : Conversation) (cfg : ModelConfig)
    (api : Request → Outcome) (hkey : env.ANTHROPIC_API_KEY = none) :
    generate_llm_response env conv cfg api
      = { text := missingKeyMsg, networkCalls := 0, sentRequest := none } := by
  simp only [generate_llm_response, hkey]

/-- Witness for C5 at a concrete environment without a credential. -/
theorem missing_credential_no_network_witness :
    generate_llm_response envNoKey [oldMsg] cfgW apiExnW
      = { text := missingKeyMsg, networkCalls := 0, sentRequest := none } :=
  missing_credential_no_network envNoKey [oldMsg] cfgW apiExnW rfl

/-- Claim C8: on a successful response the Completion Client returns
exactly the first content segment (`response.content[0].text`); any
later segments are dropped (the result is `t` for every `rest`). -/
theorem first_segment_returned (env : Env) (k t : String) (rest : List String)
    (conv : Conversation) (cfg : ModelConfig) (api : Request → Outcome)
    (hkey : env.ANTHROPIC_API_KEY = some k) (hk : ¬ k = "")
    (hres : api (mkRequest conv cfg) = Outcome.ok (t :: rest)) :
    (generate_llm_response env conv cfg api).text = t := by
  rw [generate_ok_eq env k conv cfg api t rest hkey hk hres]

/-- Witness for C8: a two-segment response yields the first segment. -/
theorem first_segment_returned_witness :
    (generate_llm_response envW [] cfgW apiMultiW).text = "hi" :=
  first_segment_returned envW "k" "hi" ["extra"] [] cfgW apiMultiW rfl (by decide) rfl

/-- Claim C3 counterexample: in a clearing pass over a non-empty prior
conversation, the old history IS rendered (the history display runs
before the clear button is handled), refuting "no message rendering of
the old history happens during the clearing pass". -/
theorem clear_pass_renders_old_history :
    (mainPass envW { messages := some [oldMsg], model_config := some cfgW }
        "" true apiExnW).map PassResult.rendered = some [oldMsg]
  ∧ [oldMsg] ≠ ([] : List Message) := ⟨rfl, by decide⟩

/-- Claim C3 (amended): in any pass where a clear is requested —
whatever prompt the pass carries and whatever the API does — the
Conversation is reset to empty and an immediate re-run is requested, and
nothing renders after the clear; however the old history has already
been rendered earlier in the same pass (it is the leading segment of
everything the pass rendered), because the history display precedes the
clear-button check. -/
theorem clear_pass_behavior (env : Env) (msgs : Conversation) (cfg : ModelConfig)
    (prompt : String) (api : Request → Outcome) (r : PassResult)
    (h : mainPass env { messages := some msgs, model_config := some cfg } prompt true api
          = some r) :
    r.state.messages = some [] ∧ r.rerun = true ∧ r.rendered.take msgs.length = msgs := by
  simp only [mainPass, init_session_state_some] at h
  cases hs : sidebar_config env cfg with
  | none => simp [hs] at h
  | some cfg1 =>
    simp only [hs] at h
    rw [← Option.some.inj h]
    refine ⟨by simp, rfl, ?_⟩
    by_cases hp : prompt = ""
    · simp [hp]
    · simp only [hp, if_neg, ite_false]
      simp [List.take_left msgs _]

/-- Concrete result of the C3 witness pass: the clear button is clicked
while a non-empty prompt is still pending, so the pass renders the old
history, then the new turn, and only then clears. -/
def passC3 : PassResult :=
  { state := { messages := some [], model_config := some cfgW }
    rendered := [oldMsg, { role := Role.user, content := "bye" },
                 { role := Role.assistant, content := "hi there" }]
    rerun := true
    sentRequest := some { model := "m1", max_tokens := 5, temperature := temp07,
                          messages := [oldMsg, { role := Role.user, content := "bye" }] } }

/-- Witness for the amended C3: a clearing pass with a pending non-empty
prompt still resets, reruns, and has rendered the old history first. -/
theorem clear_pass_behavior_witness :
    passC3.state.messages = some [] ∧ passC3.rerun = true
      ∧ passC3.rendered.take ([oldMsg] : Conversation).length = [oldMsg] :=
  clear_pass_behavior envW [oldMsg] cfgW "bye" apiOkW passC3 rfl

/-- Claim C9: a pass in which the clear action is requested resets the
Conversation to length 0, whatever the prior state, prompt and API
behaviour. -/
theorem clear_resets_conversation (env : Env) (st : SessionState) (prompt : String)
    (api : Request → Outcome) (r : PassResult)
    (h : mainPass env st prompt true api = some r) :
    r.state.messages = some [] := by
  simp only [mainPass] at h
  cases hi : init_session_state env st with
  | none => simp [hi] at h
  | some st1 =>
    simp only [hi] at h
    cases hc : st1.model_config with
    | none => simp [hc] at h
    | some cfg =>
      simp only [hc] at h
      cases hs : sidebar_config env cfg with
      | none => simp [hs] at h
      | some cfg1 =>
        simp only [hs] at h
        rw [← Option.some.inj h]
        simp

/-- Concrete result of the clearing pass used in the C9 witness. -/
def passC9 : PassResult :=
  { state := { messages := some [], model_config := some cfgW }
    rendered := [oldMsg, oldMsg]
    rerun := true
    sentRequest := none }

/-- Witness for C9: clearing a two-message conversation empties it. -/
theorem clear_resets_conversation_witness :
    passC9.state.messages = some [] :=
  clear_resets_conversation envW
    { messages := some [oldMsg, oldMsg], model_config := some cfgW } "" apiOkW passC9 rfl

/-- Claim C6: starting from an empty conversation, N non-empty
submissions processed one per pass against a canned-text stub leave the
Conversation equal to `turns canned prompts` — one user message followed
by one assistant message per turn, in submission order — of length
exactly 2N; and a pass whose completion fails still appends exactly one
assistant entry, whose content is the error text. -/
theorem conversation_growth (env : Env) (cfg : ModelConfig) (k canned failMsg p : String)
    (prompts : List String) (msgs : Conversation)
    (hkey : env.ANTHROPIC_API_KEY = some k) (hk : ¬ k = "")
    (hmem : cfg.model ∈ model_options env)
    (hps : ∀ q ∈ prompts, ¬ q = "") (hp : ¬ p = "") :
    (runPasses env (fun _ => Outcome.ok [canned])
        { messages := some [], model_config := some cfg } prompts
      = some { messages := some (turns canned prompts), model_config := some cfg }
      ∧ (turns canned prompts).length = 2 * prompts.length)
    ∧ mainPass env { messages := some msgs, model_config := some cfg } p false
        (fun _ => Outcome.exn failMsg)
      = some (submitResult env cfg (fun _ => Outcome.exn failMsg) msgs p)
    ∧ (submitResult env cfg (fun _ => Outcome.exn failMsg) msgs p).state.messages
      = some (msgs ++ [{ role := Role.user, content := p },
                       { role := Role.assistant, content := errorMsg }]) := by
  refine ⟨⟨?_, turns_length canned prompts⟩,
    mainPass_submit env cfg _ msgs p hmem hp, ?_⟩
  · have h := runPasses_canned env cfg k canned hkey hk hmem prompts [] hps
    simpa using h
  · have hgen := generate_fail_eq env k (msgs ++ [{ role := Role.user, content := p }]) cfg
      (fun _ => Outcome.exn failMsg) failMsg hkey hk (Or.inl rfl)
    simp [submitResult, hgen]

/-- Witness for C6: two canned turns from an empty conversation, and one
failing turn appending the error text. -/
theorem conversation_growth_witness :
    (runPasses envW (fun _ => Outcome.ok ["hi there"])
        { messages := some [], model_config := some cfgW } ["a", "b"]
      = some { messages := some (turns "hi there" ["a", "b"]), model_config := some cfgW }
      ∧ (turns "hi there" ["a", "b"]).length = 2 * (["a", "b"] : List String).length)
    ∧ mainPass envW { messages := some [oldMsg], model_config := some cfgW } "bye" false
        (fun _ => Outcome.exn "boom")
      = some (submitResult envW cfgW (fun _ => Outcome.exn "boom") [oldMsg] "bye")
    ∧ (submitResult envW cfgW (fun _ => Outcome.exn "boom") [oldMsg] "bye").state.messages
      = some ([oldMsg] ++ [{ role := Role.user, content := "bye" },
                           { role := Role.assistant, content := errorMsg }]) :=
  conversation_growth envW cfgW "k" "hi there" "boom" "bye" ["a", "b"] [oldMsg]
    rfl (by decide) (by decide) (by decide) (by decide)

/-- Claim C7: with the credential present, the single request sent by the
Completion Client carries `settings.model`, `settings.max_tokens`,
`settings.temperature` and the conversation exactly as it stands at call
time — every message, in order, untruncated; and in a submission pass the
conversation at call time is the prior history with the current user
message already appended. -/
theorem full_conversation_in_request (env : Env) (cfg : ModelConfig) (k p : String)
    (conv msgs : Conversation) (api : Request → Outcome)
    (hkey : env.ANTHROPIC_API_KEY = some k) (hk : ¬ k = "")
    (hmem : cfg.model ∈ model_options env) (hp : ¬ p = "") :
    (generate_llm_response env conv cfg api).sentRequest
      = some { model := cfg.model, max_tokens := cfg.max_tokens,
               temperature := cfg.temperature, messages := conv }
    ∧ mainPass env { messages := some msgs, model_config := some cfg } p false api
      = some (submitResult env cfg api msgs p)
    ∧ (submitResult env cfg api msgs p).sentRequest
      = some { model := cfg.model, max_tokens := cfg.max_tokens,
               temperature := cfg.temperature,
               messages := msgs ++ [{ role := Role.user, content := p }] } := by
  refine ⟨?_, mainPass_submit env cfg api msgs p hmem hp, ?_⟩
  · rw [generate_sentRequest env k conv cfg api hkey hk, mkRequest_eq]
  · have h := generate_sentRequest env k (msgs ++ [{ role := Role.user, content := p }]) cfg
      api hkey hk
    rw [mkRequest_eq] at h
    simp [submitResult, h]

/-- Witness for C7 at a concrete environment, history and stub. -/
theorem full_conversation_in_request_witness :
    (generate_llm_response envW [oldMsg] cfgW apiOkW).sentRequest
      = some { model := cfgW.model, max_tokens := cfgW.max_tokens,
               temperature := cfgW.temperature, messages := [oldMsg] }
    ∧ mainPass envW { messages := some [oldMsg], model_config := some cfgW } "bye" false apiOkW
      = some (submitResult envW cfgW apiOkW [oldMsg] "bye")
    ∧ (submitResult envW cfgW apiOkW [oldMsg] "bye").sentRequest
      = some { model := cfgW.model, max_tokens := cfgW.max_tokens,
               temperature := cfgW.temperature,
               messages := [oldMsg] ++ [{ role := Role.user, content := "bye" }] } :=
  full_conversation_in_request envW cfgW "k" "bye" [oldMsg] [oldMsg] apiOkW
    rfl (by decide) (by decide) (by decide)

/-- Claim C10: the session-state initializer is idempotent — a fully
populated state is left unchanged; from a fresh state it creates an
empty Conversation and a ModelSettings populated from the configuration
defaults (default model, temperature 0.7, loaded max-tokens); and
running it twice equals running it once. -/
theorem init_idempotent_contract :
    (∀ (env : Env) (st : SessionState), st.messages.isSome → st.model_config.isSome →
        init_session_state env st = some st)
  ∧ (∀ (env : Env) (mt : Int), loadMaxTokens env = some mt →
        init_session_state env { messages := none, model_config := none }
          = some { messages := some []
                 , model_config := some { model := loadDefaultModel env
                                        , temperature := temp07
                                        , max_tokens := mt } })
  ∧ (∀ (env : Env) (st st2 : SessionState),
        init_session_state env st = some st2 → init_session_state env st2 = some st2) := by
  refine ⟨init_session_state_noop, fun env mt h => ?_, fun env st st2 h => ?_⟩
  · simp [init_session_state, h]
  · obtain ⟨h1, h2⟩ := init_session_state_fields env st st2 h
    exact init_session_state_noop env st2 h1 h2

/-- Witness for C10: no-op on a populated state, creation from a fresh
state, and idempotence, at `envW`. -/
theorem init_idempotent_contract_witness :
    init_session_state envW { messages := some [oldMsg], model_config := some cfgW }
      = some { messages := some [oldMsg], model_config := some cfgW }
  ∧ init_session_state envW { messages := none, model_config := none }
      = some { messages := some []
             , model_config := some { model := loadDefaultModel envW
                                    , temperature := temp07
                                    , max_tokens := 5 } }
  ∧ init_session_state envW { messages := some [], model_config := some cfgW }
      = some { messages := some [], model_config := some cfgW } :=
  ⟨init_idempotent_contract.1 envW _ (by decide) (by decide),
   init_idempotent_contract.2.1 envW 5 (by decide),
   init_idempotent_contract.2.2 envW { messages := some [], model_config := some cfgW } _
     (init_idempotent_contract.1 envW _ (by decide) (by decide))⟩
